import Mathlib

/-!
Shallow embedding of the flask-unittest harness core:
`flask_unittest/case.py` (resource-injecting test cases) and
`flask_unittest/suite.py` (live-endpoint suite), together with theorems
settling the specification claims about them.
-/

namespace FlaskUnittest

/-- Python values a plain `create_app` can return: a Flask application
(identified by a numeric id) or a value of some other type (identified by
its rendered type name), which `_instantiate_app` rejects. -/
inductive PyVal
  | flask (appId : Nat)
  | other (tyName : String)
  deriving DecidableEq, Repr

/-- The Python exceptions the harness can raise or propagate. -/
inductive PyErr
  | typeError (msg : String)
  | stopIteration
  | socketTimeout
  | attributeError (name : String)
  | testError (msg : String)
  deriving DecidableEq, Repr

/-- Resources injected into setUp / test method / tearDown. -/
inductive Res
  | app (appId : Nat)
  | client (ofApp : Nat)
  deriving DecidableEq, Repr

/-- A method binding on a test-case instance: either the author's original
method (identified by a numeric id) or a `functools` partial application of a
binding to leading resource arguments, as installed by
`_handle_try_finally_around_internal_call`. -/
inductive Method
  | orig (id : Nat)
  | applied (inner : Method) (args : List Res)
  deriving DecidableEq, Repr

/-- The three rebindable attributes of a `_TestCaseImpl` instance: `setUp`,
the identified test method (`self._testMethodName`), and `tearDown`. -/
structure CaseState where
  setUp : Method
  testMethod : Method
  tearDown : Method
  deriving DecidableEq, Repr

/-- The value returned by `create_app` as kept in `res` by
`_instantiate_app`: either a Flask object (plain constructor) or a
generator, represented by the list of values it has yet to yield. -/
inductive CreateAppResult
  | flaskApp (appId : Nat)
  | gen (remaining : List Nat)
  deriving DecidableEq, Repr

/-- The author-supplied `create_app`: a plain function returning a value, a
plain function that raises, or a generator function whose body yields the
given app ids in order and then returns. -/
inductive CreateAppSpec
  | plain (ret : PyVal)
  | plainRaises (e : PyErr)
  | genFn (yields : List Nat)
  deriving DecidableEq, Repr

/-- Observable effects of one test invocation, in order of occurrence. -/
inductive Ev
  | acquireClient
  | runInternal
  | disposeAppStep
  | restoreBindings
  | releaseClient
  deriving DecidableEq, Repr

/-- Outcome of `internal_method()` (the prepared `super().run` or
`super().debug`): `run` returns normally recording pass/failure in the
result sink, while `debug` (or an unexpected error) re-raises. -/
inductive InternalOutcome
  | returns (passed : Bool)
  | raises (e : PyErr)
  deriving DecidableEq, Repr

/-- `AppTestCase._instantiate_app` (case.py 248-258): a generator function is
called and advanced once with `next` (an empty generator raises
`StopIteration`); a plain function's return value must be a `Flask` instance,
otherwise a `TypeError` naming the expected and actual types is raised.
Returns the pair `(res, app)`. -/
def instantiate_app : CreateAppSpec → Except PyErr (CreateAppResult × Nat)
  | .genFn yields =>
      match yields with
      | [] => .error .stopIteration
      | a :: rest => .ok (.gen rest, a)
  | .plainRaises e => .error e
  | .plain ret =>
      match ret with
      | .flask a => .ok (.flaskApp a, a)
      | .other ty =>
          .error (.typeError ("Expected create_app to return a Flask object - got " ++ ty))

/-- `AppTestCase._teardown_create_app_result` (case.py 277-290): a plain
Flask result needs no cleanup; a generator result is advanced exactly once
with `next` — `StopIteration` means clean termination, while obtaining a
second value raises a `TypeError` contract violation. Returns the events
performed and the outcome. -/
def teardown_create_app_result : CreateAppResult → List Ev × Except PyErr Unit
  | .flaskApp _ => ([], .ok ())
  | .gen remaining =>
      match remaining with
      | [] => ([.disposeAppStep], .ok ())
      | _ :: _ =>
          ([.disposeAppStep],
           .error (.typeError "Expected create_app to yield 1 value - got multiple"))

/-- The rebinding performed in the `try` block of
`_handle_try_finally_around_internal_call` (case.py 144-147): all three
methods become partials over the test args. -/
def overrideBindings (st : CaseState) (args : List Res) : CaseState :=
  { setUp := .applied st.setUp args
    testMethod := .applied st.testMethod args
    tearDown := .applied st.tearDown args }

/-- `_TestCaseImpl._handle_try_finally_around_internal_call` (case.py
116-159): rebind the three methods, call `internal_method()`, then in the
`finally` block call `_teardown_create_app_result` when the instance has that
attribute (`hook` is the `create_app_result` passed by the app variants, and
`none` for `ClientTestCase`, which lacks the attribute), and afterwards
restore the original bindings. Python semantics of a raise inside `finally`:
the statements after it in the block do not run and it replaces any
in-flight exception. Returns the final bindings, the propagated outcome, and
the event trace. -/
def handle_try_finally (st : CaseState) (args : List Res)
    (internal : InternalOutcome) (hook : Option CreateAppResult) :
    CaseState × Except PyErr Bool × List Ev :=
  let bodyOutcome : Except PyErr Bool :=
    match internal with
    | .returns passed => .ok passed
    | .raises e => .error e
  let disposal : List Ev × Except PyErr Unit :=
    match hook with
    | none => ([], .ok ())
    | some r => teardown_create_app_result r
  match disposal with
  | (dtr, .error e) => (overrideBindings st args, .error e, .runInternal :: dtr)
  | (dtr, .ok _) => (st, bodyOutcome, .runInternal :: (dtr ++ [.restoreBindings]))

/-- `ClientTestCase._handle_resource_instantiation_and_internal_call`
(case.py 201-212): open a test client for `self.app` in a `with` block and
run the common try/finally inside it; the client is released when the `with`
block exits, on every exit path. -/
def client_invoke (st : CaseState) (appId : Nat) (internal : InternalOutcome) :
    CaseState × Except PyErr Bool × List Ev :=
  let (st', out, tr) := handle_try_finally st [.client appId] internal none
  (st', out, .acquireClient :: (tr ++ [.releaseClient]))

/-- `AppTestCase._handle_resource_instantiation_and_internal_call` (case.py
260-275): instantiate the app (propagating any error before any rebinding),
then run the common try/finally with the app as the sole test arg and `res`
as the teardown hook argument. -/
def app_invoke (st : CaseState) (ca : CreateAppSpec) (internal : InternalOutcome) :
    CaseState × Except PyErr Bool × List Ev :=
  match instantiate_app ca with
  | .error e => (st, .error e, [])
  | .ok (res, a) => handle_try_finally st [.app a] internal (some res)

/-- `AppClientTestCase._handle_resource_instantiation_and_internal_call`
(case.py 325-339): instantiate the app, open a test client for it in a
`with` block, and run the common try/finally inside the `with` block with
`(app, client)` as test args; the client is released when the `with` block
exits, after the try/finally (and hence after the app teardown) finishes. -/
def appClient_invoke (st : CaseState) (ca : CreateAppSpec) (internal : InternalOutcome) :
    CaseState × Except PyErr Bool × List Ev :=
  match instantiate_app ca with
  | .error e => (st, .error e, [])
  | .ok (res, a) =>
      let (st', out, tr) := handle_try_finally st [.app a, .client a] internal (some res)
      (st', out, .acquireClient :: (tr ++ [.releaseClient]))

/-- A Flask application as the suite sees it: its configuration mapping,
restricted to the two keys the suite reads (`HOST`, `PORT`). -/
structure FlaskApp where
  configHost : Option String
  configPort : Option Nat
  deriving DecidableEq, Repr

/-- `flask_app.config.get('HOST', '127.0.0.1')` (suite.py 28). -/
def FlaskApp.host (a : FlaskApp) : String := a.configHost.getD "127.0.0.1"

/-- `flask_app.config.get('PORT', 5000)` (suite.py 29). -/
def FlaskApp.port (a : FlaskApp) : Nat := a.configPort.getD 5000

/-- `LiveTestCase` (case.py 11-24): its class body assigns
`app: Union[Flask, None] = None` and `server_url: Union[str, None] = None`,
so both attributes exist with value `None` before any injection. -/
structure LiveCase where
  app : Option FlaskApp
  server_url : Option String
  deriving DecidableEq, Repr

/-- A freshly created `LiveTestCase`, carrying the class-level defaults. -/
def LiveCase.new : LiveCase := { app := none, server_url := none }

/-- Python attribute read of `server_url` on a `LiveTestCase`: lookup falls
back to the class attribute, which the class body defines (with default
`None`), so the read always succeeds and never raises `AttributeError`. -/
def LiveCase.read_server_url (tc : LiveCase) : Except PyErr (Option String) :=
  .ok tc.server_url

/-- A direct child of a `LiveTestSuite`: a single test case, or a nested
suite of test cases (`_setup_testcases` recurses exactly one level). -/
inductive SuiteMember
  | leaf (tc : LiveCase)
  | group (tcs : List LiveCase)
  deriving DecidableEq, Repr

/-- The `timeout` argument of `LiveTestSuite.__init__`: left at the
`_GLOBAL_DEFAULT_TIMEOUT` sentinel, or explicitly given (`None` or a
number). -/
inductive TimeoutArg
  | default
  | given (t : Option ℚ)
  deriving DecidableEq

/-- A `LiveTestSuite` (suite.py 19-30): the flask app, the `timeout`
argument as passed to `__init__`, and the contained tests. -/
structure LiveTestSuite where
  flask_app : FlaskApp
  timeoutArg : TimeoutArg
  tests : List SuiteMember
  deriving DecidableEq

/-- suite.py 27: `self._timeout = timeout if timeout is not
_GLOBAL_DEFAULT_TIMEOUT else None`. -/
def LiveTestSuite.stored_timeout (s : LiveTestSuite) : Option ℚ :=
  match s.timeoutArg with
  | .default => none
  | .given t => t

/-- suite.py 28: `self._host`. -/
def LiveTestSuite.suiteHost (s : LiveTestSuite) : String := s.flask_app.host

/-- suite.py 29: `self._port`. -/
def LiveTestSuite.suitePort (s : LiveTestSuite) : Nat := s.flask_app.port

/-- suite.py 60: the timeout handed to `socket.create_connection` is
`self._timeout or None`; Python `or` maps the falsy values `None` and `0`
to `None`. -/
def LiveTestSuite.socket_timeout (s : LiveTestSuite) : Option ℚ :=
  match s.stored_timeout with
  | none => none
  | some t => if t = 0 then none else some t

/-- `_inject_properties` inside `LiveTestSuite._setup_testcases` (suite.py
41-44): sets `testcase.server_url = f'http://127.0.0.1:{self._port}'` (the
literal loopback host, not `self._host`) and `testcase.app = self._app`. -/
def LiveTestSuite.inject_properties (s : LiveTestSuite) (tc : LiveCase) : LiveCase :=
  { tc with
    server_url := some ("http://127.0.0.1:" ++ toString s.suitePort)
    app := some s.flask_app }

/-- `LiveTestSuite._setup_testcases` (suite.py 39-52): walk the direct
children; inject into each leaf test, and for a nested suite inject into
each of its members. -/
def LiveTestSuite.setup_testcases (s : LiveTestSuite) : LiveTestSuite :=
  { s with
    tests := s.tests.map fun m =>
      match m with
      | .leaf tc => .leaf (s.inject_properties tc)
      | .group tcs => .group (tcs.map s.inject_properties) }

/-- All leaf test cases of the suite, nested ones included, in order. -/
def LiveTestSuite.leafCases (s : LiveTestSuite) : List LiveCase :=
  (s.tests.map fun m =>
    match m with
    | .leaf tc => [tc]
    | .group tcs => tcs).flatten

/-- The state of the network endpoint the readiness probe connects to:
the earliest time at which `(127.0.0.1, port)` accepts a connection, or
`none` if nobody ever listens there. -/
structure Network where
  acceptsBy : Option ℚ

/-- Result of a `socket.create_connection` call. -/
inductive ConnOutcome
  | connected
  | timedOutErr
  | blocksForever
  deriving DecidableEq, Repr

/-- `socket.create_connection(addr, timeout)` semantics: with timeout `None`
the call blocks until the peer accepts (forever if it never does); with a
numeric timeout it raises `socket.timeout` when the peer does not accept
within it. -/
def create_connection (net : Network) (timeout : Option ℚ) : ConnOutcome :=
  match net.acceptsBy, timeout with
  | none, none => .blocksForever
  | none, some _ => .timedOutErr
  | some _, none => .connected
  | some a, some t => if a ≤ t then .connected else .timedOutErr

/-- Result of `LiveTestSuite.run`: an exception raised during setup (with
the list of test cases whose outcomes reached the result sink by then), an
unbounded block in the readiness probe, or normal completion delegating to
`unittest.TestSuite.run`, which records an outcome for every contained
test of the injected suite. -/
inductive RunResult
  | raises (e : PyErr) (recorded : List LiveCase)
  | hangs
  | completes (injected : LiveTestSuite) (recorded : List LiveCase)
  deriving DecidableEq

/-- `LiveTestSuite.run` (suite.py 32-35): `_setup_server` (spawn the server
thread, then probe readiness with `socket.create_connection`), then
`_setup_testcases`, then delegate to the sequential `super().run`. An
exception from the probe propagates before any test executes. -/
def LiveTestSuite.run (s : LiveTestSuite) (net : Network) : RunResult :=
  match create_connection net s.socket_timeout with
  | .blocksForever => .hangs
  | .timedOutErr => .raises .socketTimeout []
  | .connected =>
      let injected := s.setup_testcases
      .completes injected injected.leafCases

/-- A test-case instance carrying the author's original bindings: setUp
(id 0), the identified test method (id 1), tearDown (id 2). -/
def pristine : CaseState := ⟨.orig 0, .orig 1, .orig 2⟩

/-- Does a suite run raise the readiness-timeout error? -/
def raisesTimeout : RunResult → Bool
  | .raises .socketTimeout _ => true
  | _ => false

/-- C1: evaluation at the failing input. For a `NeedsApplication` case whose
generator-shaped constructor yields two values (here 5 then 6), disposal
raises the contract-violation `TypeError` inside the `finally` block, and —
contrary to the claim — the restoration statements after it are skipped: the
invocation ends with the rebound partials still installed (final bindings
are the overridden ones, not the originals) and no restore event occurs. -/
theorem C1_disposal_error_skips_restoration :
    app_invoke pristine (.genFn [5, 6]) (.returns true) =
      (overrideBindings pristine [.app 5],
       .error (.typeError "Expected create_app to yield 1 value - got multiple"),
       [.runInternal, .disposeAppStep]) ∧
    overrideBindings pristine [.app 5] ≠ pristine ∧
    Ev.restoreBindings ∉ (app_invoke pristine (.genFn [5, 6]) (.returns true)).2.2 := by
  refine ⟨rfl, by decide, by decide⟩

/-- C2: evaluation at the failing input. The restoration invariant fails on
a `NeedsApplicationAndClient` invocation whose generator constructor yields
twice (here 1 then 2) even though the test body itself passes: after the
invocation the instance's test-method binding is still the resource-bound
partial, not the original. -/
theorem C2_bindings_not_restored_after_disposal_error :
    (appClient_invoke pristine (.genFn [1, 2]) (.returns true)).1 ≠ pristine ∧
    (appClient_invoke pristine (.genFn [1, 2]) (.returns true)).1.testMethod =
      .applied (.orig 1) [.app 1, .client 1] := by
  refine ⟨by decide, rfl⟩

/-- C3 counterexample: on a concrete `NeedsApplicationAndClient` invocation
with a single-yield generator constructor (app 7) and a passing body, the
trace disposes the application (the generator advance inside the `finally`)
strictly before the client is released (the `with` block exit), so the
client is NOT released before the application is disposed. -/
theorem C3_counterexample_app_disposed_before_client_release :
    Ev.disposeAppStep ∈ (appClient_invoke pristine (.genFn [7]) (.returns true)).2.2 ∧
    Ev.releaseClient ∈ (appClient_invoke pristine (.genFn [7]) (.returns true)).2.2 ∧
    ¬ (appClient_invoke pristine (.genFn [7]) (.returns true)).2.2.indexOf Ev.releaseClient <
        (appClient_invoke pristine (.genFn [7]) (.returns true)).2.2.indexOf Ev.disposeAppStep := by
  decide

/-- C3 amended: for every `NeedsApplicationAndClient` invocation with a
generator-shaped constructor (so an application-disposal step exists), on
every exit path (any internal outcome, i.e. body passing, failing, or
raising), the application-disposal step occurs strictly BEFORE the client
release: teardown order matches acquisition order rather than reversing
it, because the app teardown runs in the `finally` inside the client's
`with` block. -/
theorem C3_amended_app_teardown_precedes_client_release
    (st : CaseState) (a : Nat) (rest : List Nat) (internal : InternalOutcome) :
    Ev.disposeAppStep ∈ (appClient_invoke st (.genFn (a :: rest)) internal).2.2 ∧
    Ev.releaseClient ∈ (appClient_invoke st (.genFn (a :: rest)) internal).2.2 ∧
    (appClient_invoke st (.genFn (a :: rest)) internal).2.2.indexOf Ev.disposeAppStep <
      (appClient_invoke st (.genFn (a :: rest)) internal).2.2.indexOf Ev.releaseClient := by
  cases rest with
  | nil =>
      have h : (appClient_invoke st (.genFn [a]) internal).2.2 =
          [.acquireClient, .runInternal, .disposeAppStep, .restoreBindings, .releaseClient] := rfl
      rw [h]; decide
  | cons b bs =>
      have h : (appClient_invoke st (.genFn (a :: b :: bs)) internal).2.2 =
          [.acquireClient, .runInternal, .disposeAppStep, .releaseClient] := rfl
      rw [h]; decide

/-- A concrete suite whose app configures HOST 10.0.0.5 and PORT 8080. -/
def hostSuite : LiveTestSuite :=
  { flask_app := { configHost := some "10.0.0.5", configPort := some 8080 }
    timeoutArg := .default
    tests := [.leaf LiveCase.new] }

/-- C4 counterexample: for a suite whose app configures HOST 10.0.0.5 and
PORT 8080, the injected `server_url` is the literal
`http://127.0.0.1:8080`, which differs from the claimed
`"http://" ++ host ++ ":" ++ port` (= `http://10.0.0.5:8080`): the
injection ignores the configured host. -/
theorem C4_counterexample_host_ignored :
    hostSuite.setup_testcases.leafCases.map LiveCase.server_url =
      [some "http://127.0.0.1:8080"] ∧
    "http://" ++ hostSuite.suiteHost ++ ":" ++ toString hostSuite.suitePort ≠
      "http://127.0.0.1:8080" := by
  refine ⟨rfl, by decide⟩

/-- Injection writes both fields, so its result does not depend on the
input case, and only on the suite's flask app. -/
theorem inject_properties_mk (fa : FlaskApp) (ta : TimeoutArg)
    (ts : List SuiteMember) (tc : LiveCase) :
    LiveTestSuite.inject_properties ⟨fa, ta, ts⟩ tc =
      ⟨some fa, some ("http://127.0.0.1:" ++ toString fa.port)⟩ := rfl

/-- C4 amended: for every `LiveTestSuite`, `_setup_testcases` injects the
same value `server_url = "http://127.0.0.1:" ++ port` — the loopback host
literal, regardless of the configured HOST — together with the suite's app,
into every leaf test it contains, including leaf tests nested one level
inside a child suite (this happens in `run` before delegating to the
sequential `unittest.TestSuite.run`). The claimed form
`"http://" ++ host ++ ":" ++ port` is obtained only when the configured
host is 127.0.0.1. -/
theorem C4_amended_injects_loopback_url_everywhere (s : LiveTestSuite) :
    s.setup_testcases.leafCases.all
      (fun tc =>
        decide (tc.server_url = some ("http://127.0.0.1:" ++ toString s.suitePort)) &&
        decide (tc.app = some s.flask_app)) = true := by
  rcases s with ⟨fa, ta, tests⟩
  induction tests with
  | nil => rfl
  | cons m rest ih =>
      cases m with
      | leaf t =>
          simpa [LiveTestSuite.setup_testcases, LiveTestSuite.leafCases,
            inject_properties_mk, LiveTestSuite.suitePort] using ih
      | group ts =>
          simp only [LiveTestSuite.setup_testcases, LiveTestSuite.leafCases,
            inject_properties_mk, LiveTestSuite.suitePort,
            List.map_cons, List.flatten_cons, List.all_append, Bool.and_eq_true] at ih ⊢
          refine ⟨?_, ih⟩
          simp [List.all_eq_true, inject_properties_mk]

/-- C5: for every generator-shaped constructor result, disposal advances the
obtained sequence exactly once (exactly one `next` step is performed), and
succeeds exactly when the sequence terminates on that advance; if the
sequence instead yields a second value (nonempty remainder), disposal raises
the distinct contract-violation `TypeError` "Expected create_app to yield 1
value - got multiple" rather than silently ignoring it. -/
theorem C5_generator_disposal_contract (remaining : List Nat) :
    (teardown_create_app_result (.gen remaining)).1.count Ev.disposeAppStep = 1 ∧
    (teardown_create_app_result (.gen remaining)).2 =
      (if remaining = [] then .ok ()
       else .error (.typeError "Expected create_app to yield 1 value - got multiple")) := by
  cases remaining <;> simp [teardown_create_app_result]

/-- C6 counterexample: reading `server_url` on a freshly constructed
`LiveTestCase`, before any suite has injected properties, is not an
attribute-access failure: the read succeeds and silently yields the `None`
class default. -/
theorem C6_counterexample_reads_none :
    LiveCase.read_server_url LiveCase.new = .ok none ∧
    ∀ e : PyErr, LiveCase.read_server_url LiveCase.new ≠ .error e := by
  exact ⟨rfl, fun e h => by cases h⟩

/-- C6 amended: before injection, reading `server_url` on a fresh
`LiveTestCase` succeeds and silently evaluates to the `None` class-body
default (it does not fail fast with an attribute error); only after a
`LiveTestSuite` injects properties does it hold the live URL. -/
theorem C6_amended_default_none_before_injection (s : LiveTestSuite) (tc : LiveCase) :
    LiveCase.read_server_url LiveCase.new = .ok none ∧
    LiveCase.read_server_url (s.inject_properties tc) =
      .ok (some ("http://127.0.0.1:" ++ toString s.suitePort)) :=
  ⟨rfl, rfl⟩

/-- C7: for every suite configured with a positive readiness timeout t over
an endpoint that never accepts a connection, `run` raises the readiness
timeout error (`socket.timeout` from `create_connection`) before any
contained test executes, with zero outcomes recorded in the result sink. -/
theorem C7_timeout_raises_before_any_test
    (fa : FlaskApp) (tests : List SuiteMember) (t : ℚ) (net : Network)
    (hto : 0 < t) (hnet : net.acceptsBy = none) :
    LiveTestSuite.run ⟨fa, .given (some t), tests⟩ net = .raises .socketTimeout [] := by
  simp [LiveTestSuite.run, create_connection, LiveTestSuite.socket_timeout,
    LiveTestSuite.stored_timeout, hnet, hto.ne']

/-- C7 witness: a concrete dead endpoint and a suite with timeout 1. -/
theorem C7_timeout_raises_before_any_test_witness :
    LiveTestSuite.run ⟨⟨none, none⟩, .given (some 1), []⟩ ⟨none⟩ =
      .raises .socketTimeout [] :=
  C7_timeout_raises_before_any_test ⟨none, none⟩ [] 1 ⟨none⟩ (by decide) rfl

/-- C8: for every app-provisioning invocation (`NeedsApplication` and
`NeedsApplicationAndClient`) whose resource constructor raises — a
generator-shaped constructor terminating without yielding (StopIteration
from the first `next`), or a plain constructor raising any error — the
error propagates before any rebinding of setUp/test/tearDown (the returned
bindings are exactly the originals, so no partial rebinding survives) and
before any execution or resource event (empty trace). -/
theorem C8_constructor_error_propagates_without_rebinding
    (st : CaseState) (internal : InternalOutcome) (e : PyErr) :
    app_invoke st (.genFn []) internal = (st, .error .stopIteration, []) ∧
    appClient_invoke st (.genFn []) internal = (st, .error .stopIteration, []) ∧
    app_invoke st (.plainRaises e) internal = (st, .error e, []) ∧
    appClient_invoke st (.plainRaises e) internal = (st, .error e, []) :=
  ⟨rfl, rfl, rfl, rfl⟩

/-- C9: for every plain constructor returning a non-Flask value, both app
provisioning variants reject it with a `TypeError` whose message names the
expected shape (Flask) and the actual shape (the value's type name), the
instance bindings are untouched, and no test execution happens (empty
trace, no runInternal event). -/
theorem C9_type_mismatch_rejection
    (st : CaseState) (internal : InternalOutcome) (ty : String) :
    app_invoke st (.plain (.other ty)) internal =
      (st, .error (.typeError ("Expected create_app to return a Flask object - got " ++ ty)), []) ∧
    appClient_invoke st (.plain (.other ty)) internal =
      (st, .error (.typeError ("Expected create_app to return a Flask object - got " ++ ty)), []) :=
  ⟨rfl, rfl⟩

/-- C10: for every `LiveTestSuite` built with the default timeout argument,
with explicit timeout None, or with timeout 0, the socket connection of the
readiness probe is created with no timeout at all (`self._timeout or None`
maps all three to None), and consequently — whatever the network does — the
run never raises the readiness-timeout error: against a dead endpoint it
blocks unboundedly instead. -/
theorem C10_falsy_timeout_means_unbounded_wait
    (fa : FlaskApp) (tests : List SuiteMember) (net : Network) :
    LiveTestSuite.socket_timeout ⟨fa, .default, tests⟩ = none ∧
    LiveTestSuite.socket_timeout ⟨fa, .given none, tests⟩ = none ∧
    LiveTestSuite.socket_timeout ⟨fa, .given (some 0), tests⟩ = none ∧
    raisesTimeout (LiveTestSuite.run ⟨fa, .default, tests⟩ net) = false ∧
    raisesTimeout (LiveTestSuite.run ⟨fa, .given none, tests⟩ net) = false ∧
    raisesTimeout (LiveTestSuite.run ⟨fa, .given (some 0), tests⟩ net) = false := by
  rcases net with ⟨acc⟩
  cases acc <;>
    simp [LiveTestSuite.run, create_connection, LiveTestSuite.socket_timeout,
      LiveTestSuite.stored_timeout, raisesTimeout]

end FlaskUnittest
